import Mathlib

/-!
A shallow embedding of the document-governance pipeline in `src/main.py`
(`extract_text_from_pdf`, `analyze_document_with_ai`, `process_new_file`),
together with theorems settling the specification claims.

External effects are modelled explicitly:
* the PDF library call (`fitz`) is an `Except String String` supplied by the
  environment — `Except.error e` means the library raised an exception `e`,
  `Except.ok t` means the concatenated page text is `t`;
* the generative-AI call (`model.generate_content` followed by
  `response.text`) is likewise an `Except String String`;
* the current date string `time.strftime "%Y%m%d"` is an environment field;
* `Path(...).mkdir` and the OS-level success of `shutil.move` are modelled by
  two environment booleans (failure of either corresponds to the Python call
  raising);
* the file system is an association list from paths to file contents plus a
  list of existing directories.  `shutil.move` onto an existing destination
  path replaces that file (POSIX `os.rename` semantics), which the model
  makes explicit.

String primitives (`str.strip`, `str.split`, `str.replace`, `os.path.join`,
`os.path.basename`) are re-implemented structurally over `List Char`,
faithful to their Python/POSIX semantics, so that all definitions reduce in
the kernel.
-/

set_option autoImplicit false

namespace DocGov

/-- Python `str.isspace` characters relevant to `str.strip()` (ASCII). -/
def pyIsSpace (c : Char) : Bool :=
  c = ' ' || c = '\t' || c = '\n' || c = '\r' || c = '\x0b' || c = '\x0c'

/-- Python `str.strip()` on a character list: drop whitespace from both ends. -/
def stripChars (l : List Char) : List Char :=
  ((l.dropWhile pyIsSpace).reverse.dropWhile pyIsSpace).reverse

/-- Python `str.strip()`. -/
def pyStrip (s : String) : String :=
  ⟨stripChars s.data⟩

/-- Python `s.split('|')`: split on every occurrence of the pipe character,
keeping empty fields; the empty string yields `[[]]`, matching
`"".split('|') == ['']`. -/
def splitPipe (l : List Char) : List (List Char) :=
  match l with
  | [] => [[]]
  | c :: rest =>
    let r := splitPipe rest
    if c = '|' then [] :: r
    else
      match r with
      | [] => [[c]]
      | h :: t => (c :: h) :: t

/-- Python `s.replace(" ", "_")`: every individual space character becomes an
underscore (other whitespace is untouched, runs are not collapsed). -/
def replaceSpaceUnderscore (l : List Char) : List Char :=
  match l with
  | [] => []
  | c :: rest => (if c = ' ' then '_' else c) :: replaceSpaceUnderscore rest

/-- POSIX `os.path.basename`: the suffix after the last slash. -/
def basename (p : String) : String :=
  ⟨(p.data.reverse.takeWhile (fun c => c ≠ '/')).reverse⟩

/-- POSIX `os.path.join` with two components: an absolute second component
replaces the first; otherwise a slash is inserted unless the first component
is empty or already ends with a slash. -/
def os_path_join (a b : String) : String :=
  if b.data.head? = some '/' then b
  else if a = "" ∨ a.data.getLast? = some '/' then a ++ b
  else a ++ "/" ++ b

/-- `WATCH_DIR` from the configuration section of `main.py`. -/
def WATCH_DIR : String := "./dropzone"

/-- `PROCESSED_DIR` from the configuration section of `main.py`. -/
def PROCESSED_DIR : String := "./organized_docs"

/-- Audit-log severity used by `logging.info` / `logging.error`. -/
inductive LogLevel where
  | info
  | error
deriving DecidableEq, Repr

/-- One audit-log record: severity and message. -/
abbrev LogEntry := LogLevel × String

/-- The file system seen by the pipeline: files as a path-to-content
association list, and the set of directories, as a list of paths. -/
structure World where
  fs : List (String × String)
  dirs : List String
deriving DecidableEq, Repr

/-- First content associated to path `p`, scanning left to right. -/
def fsLookup (fs : List (String × String)) (p : String) : Option String :=
  match fs with
  | [] => none
  | (q, c) :: rest => if q = p then some c else fsLookup rest p

/-- Remove every entry for path `p`. -/
def fsErase (fs : List (String × String)) (p : String) : List (String × String) :=
  match fs with
  | [] => []
  | (q, c) :: rest => if q = p then fsErase rest p else (q, c) :: fsErase rest p

/-- Bind path `p` to content `c`, replacing any previous binding: this is the
destructive write performed by `os.rename` / `shutil.move` when the
destination already exists. -/
def fsSet (fs : List (String × String)) (p c : String) : List (String × String) :=
  fsErase fs p ++ [(p, c)]

/-- `shutil.move src dst` on the file model: raises (`Except.error`) when the
source is missing, otherwise removes the source entry and writes its content
at the destination, silently replacing an existing destination file. -/
def shutil_move (fs : List (String × String)) (src dst : String) :
    Except String (List (String × String)) :=
  match fsLookup fs src with
  | none => Except.error "FileNotFoundError"
  | some c => Except.ok (fsSet (fsErase fs src) dst c)

/-- Environment for one `process_new_file` run: the behaviour of every
external call the run makes. -/
structure Env where
  /-- Behaviour of the `fitz` calls inside `extract_text_from_pdf`:
  `Except.error e` when the library raises, `Except.ok t` for page text `t`. -/
  extractRaw : Except String String
  /-- Behaviour of `model.generate_content(...)` followed by
  `response.text`: `Except.error e` when this raises, otherwise the raw
  response string. -/
  aiCall : Except String String
  /-- `time.strftime "%Y%m%d"` at routing time. -/
  today : String
  /-- Whether `Path(target_folder).mkdir(exist_ok=True)` succeeds. -/
  mkdirOk : Bool
  /-- Whether the OS-level move succeeds, given that the source exists. -/
  moveOk : Bool

/-- `extract_text_from_pdf` (main.py lines 37-47): returns the text on
success; on a library exception logs an error and returns `None`. -/
def extract_text_from_pdf (raw : Except String String) (file_path : String) :
    Option String × List LogEntry :=
  match raw with
  | Except.ok t => (some t, [])
  | Except.error e =>
    (none, [(LogLevel.error, "Failed to read PDF " ++ file_path ++ ": " ++ e)])

/-- Body of the `try` block in `analyze_document_with_ai` (main.py lines
64-66): strip the response, split on every pipe, take field 0 stripped as the
category and field 1 stripped with spaces replaced by underscores as the
summary.  `none` models the `IndexError` raised by `result[1]` when the
response contains no pipe. -/
def parse_ai_response (resp : String) : Option (String × String) :=
  match splitPipe (stripChars resp.data) with
  | a :: b :: _ =>
    some (⟨stripChars a⟩, ⟨replaceSpaceUnderscore (stripChars b)⟩)
  | _ => none

/-- The `try` block of `analyze_document_with_ai` as a fallible computation:
either the service call raises, or parsing raises `IndexError`, or a
(category, summary) pair is produced. -/
def analyze_body (call : Except String String) :
    Except String (String × String) :=
  match call with
  | Except.error e => Except.error e
  | Except.ok resp =>
    match parse_ai_response resp with
    | some cs => Except.ok cs
    | none => Except.error "list index out of range"

/-- `analyze_document_with_ai` (main.py lines 49-70): any exception from the
`try` block is caught, logged, and replaced by the fallback pair
`("Unclassified", "Unknown_Subject")`.  The plain (non-`Except`) return type
is the totality of the function: it never raises outward. -/
def analyze_document_with_ai (call : Except String String) :
    (String × String) × List LogEntry :=
  match analyze_body call with
  | Except.ok cs => (cs, [])
  | Except.error e =>
    (("Unclassified", "Unknown_Subject"),
      [(LogLevel.error, "AI API Error: " ++ e)])

/-- Control outcome of one `process_new_file` run. -/
inductive Outcome where
  /-- Early `return` after extraction produced no text. -/
  | skipped
  /-- `shutil.move` succeeded; the file now lives at `dest`. -/
  | routed (dest : String)
  /-- The `except` branch around `shutil.move` ran: move failed, error
  logged, function returned normally. -/
  | failed
deriving DecidableEq, Repr

/-- How a `process_new_file` call terminates: a normal return with an
outcome, or an uncaught Python exception propagating to the caller. -/
inductive PyResult where
  | done (o : Outcome)
  | raised (msg : String)
deriving DecidableEq, Repr

/-- Result of one `process_new_file` run: the file system afterwards, the
audit-log records appended, and how the call terminated. -/
structure PResult where
  world : World
  log : List LogEntry
  result : PyResult
deriving DecidableEq, Repr

/-- `process_new_file` (main.py lines 75-103), step for step:
read (`extract_text_from_pdf`, early return on falsy text), classify
(`analyze_document_with_ai`), build `target_folder` and `mkdir` it — note
that this `mkdir` is *outside* any `try`, so its failure is modelled as
`PyResult.raised` — build the dated filename, and move the file inside a
`try`/`except` that logs failures. -/
def process_new_file (env : Env) (w : World) (file_path : String) : PResult :=
  let filename := basename file_path
  let log0 : List LogEntry :=
    [(LogLevel.info,
      "New file detected: " ++ filename ++ ". Starting processing...")]
  let ex := extract_text_from_pdf env.extractRaw file_path
  let log1 := log0 ++ ex.2
  match ex.1 with
  | none => ⟨w, log1, PyResult.done Outcome.skipped⟩
  | some text =>
    if text = "" then ⟨w, log1, PyResult.done Outcome.skipped⟩
    else
      let ar := analyze_document_with_ai env.aiCall
      let category := ar.1.1
      let context_summary := ar.1.2
      let log2 := log1 ++ ar.2
      let target_folder := os_path_join PROCESSED_DIR category
      if env.mkdirOk = false then
        ⟨w, log2, PyResult.raised "OSError: mkdir failed"⟩
      else
        let dirs2 :=
          if target_folder ∈ w.dirs then w.dirs else w.dirs ++ [target_folder]
        let timestamp := env.today
        let new_filename :=
          timestamp ++ "_" ++ category ++ "_" ++ context_summary ++ ".pdf"
        let new_file_path := os_path_join target_folder new_filename
        let moveRes :=
          if env.moveOk then shutil_move w.fs file_path new_file_path
          else Except.error "OSError: move failed"
        match moveRes with
        | Except.ok fs2 =>
          ⟨⟨fs2, dirs2⟩,
            log2 ++
              [(LogLevel.info,
                "SUCCESS: Routed \x27" ++ filename ++ "\x27 to \x27" ++
                  new_file_path ++ "\x27")],
            PyResult.done (Outcome.routed new_file_path)⟩
        | Except.error e =>
          ⟨⟨w.fs, dirs2⟩,
            log2 ++
              [(LogLevel.error,
                "Failed to route file " ++ filename ++ ": " ++ e)],
            PyResult.done Outcome.failed⟩

/-- The condition of the early `return` in `process_new_file`
(`if not text`): extraction raised, or the extracted text is empty. -/
def extraction_failed (raw : Except String String) : Bool :=
  match raw with
  | Except.ok t => t == ""
  | Except.error _ => true

end DocGov

namespace DocGov

/-- A path bound to `fsSet fs q c` looks up to `c`. -/
theorem fsLookup_fsSet_self (fs : List (String × String)) (q c : String) :
    fsLookup (fsSet fs q c) q = some c := by
  unfold fsSet
  induction fs with
  | nil => simp [fsErase, fsLookup]
  | cons hd tl ih =>
    obtain ⟨a, d⟩ := hd
    by_cases ha : a = q
    · simpa [fsErase, ha] using ih
    · simpa [fsErase, ha, fsLookup] using ih

/-- The directory list produced by the idempotent `mkdir` step contains the
created directory. -/
theorem mem_insertDir (d : String) (ds : List String) :
    d ∈ (if d ∈ ds then ds else ds ++ [d]) := by
  by_cases h : d ∈ ds <;> simp [h]

example : pyStrip "  Invoice  " = "Invoice" := by decide

example :
    parse_ai_response "Invoice | Acme Q1 Invoice" =
      some ("Invoice", "Acme_Q1_Invoice") := by decide

example : os_path_join PROCESSED_DIR "Invoice" = "./organized_docs/Invoice" := by
  decide

example : os_path_join PROCESSED_DIR "" = "./organized_docs/" := by decide

/-- C2 counterexample: the response `"|Foo"` has a first part that is empty
after trimming, so the claim demands the fallback pair; the code instead
returns `("", "Foo")`. -/
theorem C2_empty_part_not_fallback :
    (analyze_document_with_ai (Except.ok "|Foo")).1 ≠
      ("Unclassified", "Unknown_Subject") := by decide

/-- C2 (amended): the classifier falls back to
`("Unclassified", "Unknown_Subject")` when splitting the stripped response on
`|` yields fewer than two parts (i.e. the response contains no pipe, so
`result[1]` raises `IndexError`); a response with a pipe but empty
parts after trimming is returned as those (possibly empty) parts, not
replaced by the fallback. -/
theorem C2_no_pipe_fallback (r : String)
    (h : (splitPipe (stripChars r.data)).length < 2) :
    (analyze_document_with_ai (Except.ok r)).1 =
      ("Unclassified", "Unknown_Subject") := by
  rcases e : splitPipe (stripChars r.data) with _ | ⟨a, _ | ⟨b, t⟩⟩
  · simp [analyze_document_with_ai, analyze_body, parse_ai_response, e]
  · simp [analyze_document_with_ai, analyze_body, parse_ai_response, e]
  · rw [e] at h
    simp at h
    omega

/-- C2 witness: a response without any pipe falls back. -/
theorem C2_no_pipe_fallback_witness :
    (splitPipe (stripChars ("no pipe here").data)).length < 2 ∧
    (analyze_document_with_ai (Except.ok "no pipe here")).1 =
      ("Unclassified", "Unknown_Subject") :=
  ⟨by decide, C2_no_pipe_fallback "no pipe here" (by decide)⟩

/-- C6 counterexample: for the response `"Invoice | Acme | Q1"`, the claim
demands that the summary be the entire remainder after the first pipe,
normalized — `"Acme_|_Q1"`.  The code splits on every pipe and uses only
`result[1]`, giving `"Acme"`. -/
theorem C6_remainder_lost :
    (analyze_document_with_ai (Except.ok "Invoice | Acme | Q1")).1.2 = "Acme" ∧
    (analyze_document_with_ai (Except.ok "Invoice | Acme | Q1")).1.2 ≠
      "Acme_|_Q1" := by decide

/-- C6 (amended): on a response whose stripped text splits on `|` into at
least two fields, the category is field 0 trimmed and the summary is field 1
— the text between the first and second pipe, not the whole remainder —
trimmed, with each individual space character replaced by an underscore
(runs of spaces become runs of underscores; tabs and newlines are kept). -/
theorem C6_summary_is_second_field (r : String) (a b : List Char)
    (rest : List (List Char))
    (h : splitPipe (stripChars r.data) = a :: b :: rest) :
    (analyze_document_with_ai (Except.ok r)).1 =
      (⟨stripChars a⟩, ⟨replaceSpaceUnderscore (stripChars b)⟩) := by
  simp [analyze_document_with_ai, analyze_body, parse_ai_response, h]

/-- C6 witness: a summary containing a double space keeps both characters as
underscores. -/
theorem C6_summary_witness :
    splitPipe (stripChars ("Invoice | Acme  Q1 Invoice").data) =
      [("Invoice ").data, (" Acme  Q1 Invoice").data] ∧
    (analyze_document_with_ai (Except.ok "Invoice | Acme  Q1 Invoice")).1 =
      (⟨stripChars ("Invoice ").data⟩,
        ⟨replaceSpaceUnderscore (stripChars (" Acme  Q1 Invoice").data)⟩) :=
  ⟨by decide,
    C6_summary_is_second_field "Invoice | Acme  Q1 Invoice"
      ("Invoice ").data (" Acme  Q1 Invoice").data [] (by decide)⟩

/-- C9: the classifier is total.  `analyze_document_with_ai` returns a plain
pair for every behaviour of the external call (its non-`Except` type is the
no-raise guarantee), and whenever the `try` body fails —
service error or malformed response — the result is exactly the fallback
pair `("Unclassified", "Unknown_Subject")`. -/
theorem C9_classifier_total (call : Except String String) :
    analyze_body call = Except.ok (analyze_document_with_ai call).1 ∨
    (analyze_document_with_ai call).1 = ("Unclassified", "Unknown_Subject") := by
  rcases h : analyze_body call with e | cs
  · right
    simp [analyze_document_with_ai, h]
  · left
    simp [analyze_document_with_ai, h]

/-- C1: two files routed on the same day with the same classification compute
the same destination path, and the second `shutil.move` silently replaces the
first archived file — afterwards the archive holds a single file at that path
with the second file's content, contradicting the no-overwrite law. -/
theorem C1_same_destination_overwrites :
    (process_new_file
      ⟨Except.ok "text of b", Except.ok "Invoice | Acme Q1 Invoice",
        "20240115", true, true⟩
      (process_new_file
        ⟨Except.ok "text of a", Except.ok "Invoice | Acme Q1 Invoice",
          "20240115", true, true⟩
        ⟨[("./dropzone/a.pdf", "content A"), ("./dropzone/b.pdf", "content B")],
          []⟩
        "./dropzone/a.pdf").world
      "./dropzone/b.pdf").world.fs =
    [("./organized_docs/Invoice/20240115_Invoice_Acme_Q1_Invoice.pdf",
      "content B")] := by decide

/-- C3 counterexample: when `Path(target_folder).mkdir` fails, the exception
propagates out of `process_new_file` uncaught — the claim says it is captured
and recorded as a terminal `Failed` outcome. -/
theorem C3_mkdir_failure_raises :
    (process_new_file
      ⟨Except.ok "some text", Except.ok "Invoice | Acme Q1 Invoice",
        "20240115", false, true⟩
      ⟨[("./dropzone/a.pdf", "content A")], []⟩
      "./dropzone/a.pdf").result =
    PyResult.raised "OSError: mkdir failed" := by decide

/-- C3 (amended): a failure of the `mkdir` at line 90 is *not* captured: the
`mkdir` sits outside any `try`, so the exception propagates out of the
per-file pipeline uncaught, the file system is untouched, and no `Failed`
record is appended to the audit log for it (the log holds only the
detection record and any extraction/classification records). -/
theorem C3_mkdir_failure_propagates (env : Env) (w : World) (p t : String)
    (hx : env.extractRaw = Except.ok t) (ht : t ≠ "")
    (hm : env.mkdirOk = false) :
    (process_new_file env w p).result = PyResult.raised "OSError: mkdir failed" ∧
    (process_new_file env w p).world = w ∧
    (process_new_file env w p).log =
      [(LogLevel.info,
        "New file detected: " ++ basename p ++ ". Starting processing...")] ++
        (extract_text_from_pdf env.extractRaw p).2 ++
        (analyze_document_with_ai env.aiCall).2 := by
  refine ⟨?_, ?_, ?_⟩ <;>
    simp [process_new_file, extract_text_from_pdf, hx, ht, hm]

/-- C3 witness: concrete run in which `mkdir` fails. -/
theorem C3_mkdir_failure_witness :
    (process_new_file
      ⟨Except.ok "some text", Except.ok "timeout-free response",
        "20240115", false, true⟩
      ⟨[("./dropzone/c.pdf", "C")], []⟩
      "./dropzone/c.pdf").result = PyResult.raised "OSError: mkdir failed" ∧
    (process_new_file
      ⟨Except.ok "some text", Except.ok "timeout-free response",
        "20240115", false, true⟩
      ⟨[("./dropzone/c.pdf", "C")], []⟩
      "./dropzone/c.pdf").world = ⟨[("./dropzone/c.pdf", "C")], []⟩ ∧
    (process_new_file
      ⟨Except.ok "some text", Except.ok "timeout-free response",
        "20240115", false, true⟩
      ⟨[("./dropzone/c.pdf", "C")], []⟩
      "./dropzone/c.pdf").log =
      [(LogLevel.info,
        "New file detected: " ++ basename "./dropzone/c.pdf" ++
          ". Starting processing...")] ++
        (extract_text_from_pdf (Except.ok "some text") "./dropzone/c.pdf").2 ++
        (analyze_document_with_ai (Except.ok "timeout-free response")).2 :=
  C3_mkdir_failure_propagates _ _ _ "some text" rfl (by decide) rfl

/-- C4 counterexample: with service response `"|X"` the classifier returns
the empty category, and the router uses it *verbatim*: the created directory
is `./organized_docs/` (the archive root itself, from joining with the empty
string), not `./organized_docs/Other`, and the file lands directly in the
archive root. -/
theorem C4_empty_category_not_other :
    (process_new_file
      ⟨Except.ok "x", Except.ok "|X", "20240115", true, true⟩
      ⟨[("./dropzone/f.pdf", "F")], []⟩
      "./dropzone/f.pdf").world.dirs = ["./organized_docs/"] ∧
    "./organized_docs/Other" ∉
      (process_new_file
        ⟨Except.ok "x", Except.ok "|X", "20240115", true, true⟩
        ⟨[("./dropzone/f.pdf", "F")], []⟩
        "./dropzone/f.pdf").world.dirs ∧
    (process_new_file
      ⟨Except.ok "x", Except.ok "|X", "20240115", true, true⟩
      ⟨[("./dropzone/f.pdf", "F")], []⟩
      "./dropzone/f.pdf").result =
      PyResult.done (Outcome.routed "./organized_docs/20240115__X.pdf") := by
  decide

/-- C4 (amended): the router performs no sanitization.  Whatever category
string classification produced — empty, or containing path separators — is
joined verbatim onto the archive root, and that directory is the one the
pipeline creates. -/
theorem C4_category_used_verbatim (env : Env) (w : World) (p t c s : String)
    (hx : env.extractRaw = Except.ok t) (ht : t ≠ "")
    (hc : (analyze_document_with_ai env.aiCall).1 = (c, s))
    (hm : env.mkdirOk = true) :
    os_path_join PROCESSED_DIR c ∈ (process_new_file env w p).world.dirs := by
  by_cases hmv : env.moveOk
  · rcases hlk : fsLookup w.fs p with _ | content
    · simpa [process_new_file, extract_text_from_pdf, hx, ht, hc, hm, hmv,
        shutil_move, hlk] using mem_insertDir (os_path_join PROCESSED_DIR c) w.dirs
    · simpa [process_new_file, extract_text_from_pdf, hx, ht, hc, hm, hmv,
        shutil_move, hlk] using mem_insertDir (os_path_join PROCESSED_DIR c) w.dirs
  · simpa [process_new_file, extract_text_from_pdf, hx, ht, hc, hm, hmv]
      using mem_insertDir (os_path_join PROCESSED_DIR c) w.dirs

/-- C4 witness: the empty category is joined verbatim. -/
theorem C4_category_witness :
    os_path_join PROCESSED_DIR "" ∈
      (process_new_file
        ⟨Except.ok "x", Except.ok "|X", "20240115", true, true⟩
        ⟨[("./dropzone/f.pdf", "F")], []⟩
        "./dropzone/f.pdf").world.dirs :=
  C4_category_used_verbatim _ _ _ "x" "" "X" rfl (by decide) (by decide) rfl

/-- C5: on a fully successful run — extraction yields nonempty text,
classification yields `(c, s)`, `mkdir` and the move succeed, the source
exists — the file is routed to exactly
`os_path_join (os_path_join PROCESSED_DIR c) (today ++ "_" ++ c ++ "_" ++ s
++ ".pdf")`, and afterwards that path holds the source file's content. -/
theorem C5_destination_path (env : Env) (w : World) (p t c s content : String)
    (hx : env.extractRaw = Except.ok t) (ht : t ≠ "")
    (hc : (analyze_document_with_ai env.aiCall).1 = (c, s))
    (hm : env.mkdirOk = true) (hv : env.moveOk = true)
    (hsrc : fsLookup w.fs p = some content) :
    (process_new_file env w p).result =
      PyResult.done (Outcome.routed
        (os_path_join (os_path_join PROCESSED_DIR c)
          (env.today ++ "_" ++ c ++ "_" ++ s ++ ".pdf"))) ∧
    fsLookup (process_new_file env w p).world.fs
      (os_path_join (os_path_join PROCESSED_DIR c)
        (env.today ++ "_" ++ c ++ "_" ++ s ++ ".pdf")) = some content := by
  refine ⟨?_, ?_⟩ <;>
    simp [process_new_file, extract_text_from_pdf, hx, ht, hc, hm, hv,
      shutil_move, hsrc, fsLookup_fsSet_self]

/-- C5 witness: Scenario A of the specification. -/
theorem C5_destination_witness :
    (process_new_file
      ⟨Except.ok "Invoice #123 from Acme", Except.ok "Invoice | Acme Q1 Invoice",
        "20240115", true, true⟩
      ⟨[("./dropzone/invoice_q1.pdf", "PDFBYTES")], []⟩
      "./dropzone/invoice_q1.pdf").result =
      PyResult.done (Outcome.routed
        (os_path_join (os_path_join PROCESSED_DIR "Invoice")
          ("20240115" ++ "_" ++ "Invoice" ++ "_" ++ "Acme_Q1_Invoice" ++
            ".pdf"))) ∧
    fsLookup
      (process_new_file
        ⟨Except.ok "Invoice #123 from Acme", Except.ok "Invoice | Acme Q1 Invoice",
          "20240115", true, true⟩
        ⟨[("./dropzone/invoice_q1.pdf", "PDFBYTES")], []⟩
        "./dropzone/invoice_q1.pdf").world.fs
      (os_path_join (os_path_join PROCESSED_DIR "Invoice")
        ("20240115" ++ "_" ++ "Invoice" ++ "_" ++ "Acme_Q1_Invoice" ++
          ".pdf")) = some "PDFBYTES" :=
  C5_destination_path _ _ _ "Invoice #123 from Acme" "Invoice" "Acme_Q1_Invoice"
    "PDFBYTES" rfl (by decide) (by decide) rfl rfl (by decide)

/-- C7: when extraction fails (library exception) or yields empty text, the
run terminates as `Skipped`, the file system — in particular the source file
— is untouched, and the run is independent of the classifier, the `mkdir`,
the move, and the date: any environment agreeing on the extraction behaviour
produces the identical result, so neither the Classifier nor the Router is
invoked. -/
theorem C7_extraction_failure_skips (env env2 : Env) (w : World) (p : String)
    (hagree : env2.extractRaw = env.extractRaw)
    (h : extraction_failed env.extractRaw = true) :
    (process_new_file env w p).result = PyResult.done Outcome.skipped ∧
    (process_new_file env w p).world = w ∧
    process_new_file env2 w p = process_new_file env w p := by
  rcases hx : env.extractRaw with e | t
  · refine ⟨?_, ?_, ?_⟩ <;>
      simp [process_new_file, extract_text_from_pdf, hx, hagree]
  · rw [hx] at h
    simp [extraction_failed] at h
    refine ⟨?_, ?_, ?_⟩ <;>
      simp [process_new_file, extract_text_from_pdf, hx, hagree, h]

/-- C7 witness: an unreadable PDF is skipped; even a wildly different
classifier/date/mkdir/move environment yields the identical run. -/
theorem C7_skip_witness :
    (process_new_file
      ⟨Except.error "cannot open broken document", Except.ok "Invoice | X",
        "20240115", true, true⟩
      ⟨[("./dropzone/bad.pdf", "JUNK")], []⟩
      "./dropzone/bad.pdf").result = PyResult.done Outcome.skipped ∧
    (process_new_file
      ⟨Except.error "cannot open broken document", Except.ok "Invoice | X",
        "20240115", true, true⟩
      ⟨[("./dropzone/bad.pdf", "JUNK")], []⟩
      "./dropzone/bad.pdf").world = ⟨[("./dropzone/bad.pdf", "JUNK")], []⟩ ∧
    process_new_file
      ⟨Except.error "cannot open broken document", Except.error "service down",
        "20990101", false, false⟩
      ⟨[("./dropzone/bad.pdf", "JUNK")], []⟩
      "./dropzone/bad.pdf" =
    process_new_file
      ⟨Except.error "cannot open broken document", Except.ok "Invoice | X",
        "20240115", true, true⟩
      ⟨[("./dropzone/bad.pdf", "JUNK")], []⟩
      "./dropzone/bad.pdf" :=
  C7_extraction_failure_skips _ _ _ _ rfl rfl

/-- C8: when the move fails — OS error, or the source vanished before the
move — the run ends in the terminal `Failed` outcome (a normal return, not a
crash), the file system is unchanged (the source is left in place, nothing
deleted), and the audit log ends with an error record for the failed
routing. -/
theorem C8_move_failure_terminal (env : Env) (w : World) (p t : String)
    (hx : env.extractRaw = Except.ok t) (ht : t ≠ "")
    (hm : env.mkdirOk = true)
    (hfail : env.moveOk = false ∨ fsLookup w.fs p = none) :
    (process_new_file env w p).result = PyResult.done Outcome.failed ∧
    (process_new_file env w p).world.fs = w.fs ∧
    (process_new_file env w p).log =
      [(LogLevel.info,
        "New file detected: " ++ basename p ++ ". Starting processing...")] ++
        (extract_text_from_pdf env.extractRaw p).2 ++
        (analyze_document_with_ai env.aiCall).2 ++
        [(LogLevel.error,
          "Failed to route file " ++ basename p ++ ": " ++
            (if env.moveOk = true then "FileNotFoundError"
              else "OSError: move failed"))] := by
  cases hmv : env.moveOk with
  | false =>
    refine ⟨?_, ?_, ?_⟩ <;>
      simp [process_new_file, extract_text_from_pdf, hx, ht, hm, hmv]
  | true =>
    have h2 : fsLookup w.fs p = none := by
      rcases hfail with h1 | h2
      · rw [hmv] at h1
        simp at h1
      · exact h2
    refine ⟨?_, ?_, ?_⟩ <;>
      simp [process_new_file, extract_text_from_pdf, hx, ht, hm, hmv,
        shutil_move, h2]

/-- C8 witness: a concrete run whose move fails with an OS error. -/
theorem C8_move_failure_witness :
    (process_new_file
      ⟨Except.ok "some text", Except.ok "Invoice | Acme Q1 Invoice",
        "20240115", true, false⟩
      ⟨[("./dropzone/g.pdf", "G")], []⟩
      "./dropzone/g.pdf").result = PyResult.done Outcome.failed ∧
    (process_new_file
      ⟨Except.ok "some text", Except.ok "Invoice | Acme Q1 Invoice",
        "20240115", true, false⟩
      ⟨[("./dropzone/g.pdf", "G")], []⟩
      "./dropzone/g.pdf").world.fs = [("./dropzone/g.pdf", "G")] ∧
    (process_new_file
      ⟨Except.ok "some text", Except.ok "Invoice | Acme Q1 Invoice",
        "20240115", true, false⟩
      ⟨[("./dropzone/g.pdf", "G")], []⟩
      "./dropzone/g.pdf").log =
      [(LogLevel.info, "New file detected: g.pdf. Starting processing..."),
        (LogLevel.error,
          "Failed to route file g.pdf: OSError: move failed")] :=
  C8_move_failure_terminal _ _ _ "some text" rfl (by decide) rfl (Or.inl rfl)

/-- C10: when classification completes and `mkdir` succeeds but the move then
fails, the category directory created before the move persists in the
archive tree, while the file system — the source file and every pre-existing
archive file — is exactly as before, and the run ends in the terminal
`Failed` outcome. -/
theorem C10_dir_persists_on_move_failure (env : Env) (w : World)
    (p t c s : String)
    (hx : env.extractRaw = Except.ok t) (ht : t ≠ "")
    (hc : (analyze_document_with_ai env.aiCall).1 = (c, s))
    (hm : env.mkdirOk = true) (hmv : env.moveOk = false) :
    os_path_join PROCESSED_DIR c ∈ (process_new_file env w p).world.dirs ∧
    (process_new_file env w p).world.fs = w.fs ∧
    (process_new_file env w p).result = PyResult.done Outcome.failed := by
  refine ⟨?_, ?_, ?_⟩
  · simpa [process_new_file, extract_text_from_pdf, hx, ht, hc, hm, hmv]
      using mem_insertDir (os_path_join PROCESSED_DIR c) w.dirs
  · simp [process_new_file, extract_text_from_pdf, hx, ht, hc, hm, hmv]
  · simp [process_new_file, extract_text_from_pdf, hx, ht, hc, hm, hmv]

/-- C10 witness: the `Contract` directory persists although the move
failed. -/
theorem C10_dir_persists_witness :
    os_path_join PROCESSED_DIR "Contract" ∈
      (process_new_file
        ⟨Except.ok "deal text", Except.ok "Contract | Acme Deal",
          "20240115", true, false⟩
        ⟨[("./dropzone/deal.pdf", "D")], ["./organized_docs/Invoice"]⟩
        "./dropzone/deal.pdf").world.dirs ∧
    (process_new_file
      ⟨Except.ok "deal text", Except.ok "Contract | Acme Deal",
        "20240115", true, false⟩
      ⟨[("./dropzone/deal.pdf", "D")], ["./organized_docs/Invoice"]⟩
      "./dropzone/deal.pdf").world.fs = [("./dropzone/deal.pdf", "D")] ∧
    (process_new_file
      ⟨Except.ok "deal text", Except.ok "Contract | Acme Deal",
        "20240115", true, false⟩
      ⟨[("./dropzone/deal.pdf", "D")], ["./organized_docs/Invoice"]⟩
      "./dropzone/deal.pdf").result = PyResult.done Outcome.failed :=
  C10_dir_persists_on_move_failure _ _ _ "deal text" "Contract" "Acme_Deal"
    rfl (by decide) (by decide) rfl rfl

end DocGov
